import Mathlib

set_option linter.unusedVariables false

/-!
Shallow embedding of the BMD (Biodiversity Meets Data) application:
`app/database.py` (SQLite-backed CRUD over a `users` and a `workflows`
table) and the FastAPI endpoints of `app/main.py` (signup, login,
submit-workflow, webhook receiver, list-workflows, delete-workflow) plus
the NiceGUI results page and account page actions that touch the store.

Conventions of the embedding:
  - the SQLite database is a `DB` value (two lists of rows, in insertion
    order); each Python/SQL statement becomes a pure function on `DB`;
  - timestamps (`datetime.utcnow().isoformat()` and SQLite
    `CURRENT_TIMESTAMP`) are abstract ticks `Timestamp := Nat`, passed in
    as an explicit `now` argument;
  - Python truthiness of `Optional[str]` values (`if results:`) is the
    predicate `truthy` (present and non-empty);
  - JWT verification (`verify_token`), bcrypt hashing, uuid generation and
    the bytes of the external HTTP exchange are oracles: their results are
    arguments of the endpoint functions;
  - an unhandled Python exception inside a handler (which FastAPI turns
    into an HTTP 500) is the `ApiResult.pythonError` constructor.
-/

namespace BMD

/-- Abstract timestamp (ISO-8601 strings in the code; here a tick). -/
abbrev Timestamp := Nat

/-- A row of the `users` table (database.py, init_db, lines 29-39). -/
structure User where
  user_id : String
  email : String
  password_hash : String
  name : String
  orcid : Option String
  created_at : Timestamp
  updated_at : Timestamp
deriving Repr, DecidableEq

/-- A row of the `workflows` table (database.py, init_db, lines 48-67). -/
structure Workflow where
  workflow_id : String
  user_id : String
  name : String
  description : String
  species_name : String
  ecosystem_type : String
  geometry_type : String
  geometry_wkt : String
  parameters : String
  status : String
  results : Option String
  error_message : Option String
  created_at : Timestamp
  updated_at : Timestamp
  completed_at : Option Timestamp
deriving Repr, DecidableEq

/-- The SQLite store: the two tables, rows in insertion order. -/
structure DB where
  users : List User
  workflows : List Workflow
deriving Repr, DecidableEq

/-- Python truthiness of an `Optional[str]`: present and non-empty. -/
def truthy : Option String → Bool
  | none => false
  | some s => s ≠ ""

/-- database.py `create_user` (lines 97-112): INSERT a fresh user row.
The uuid4 `user_id` is an argument. The table has `user_id` as PRIMARY KEY
and `email` UNIQUE, so the INSERT raises `IntegrityError` when either is
already taken; otherwise the row is appended with both timestamps
defaulted to now. -/
def create_user (db : DB) (user_id email password_hash name : String)
    (orcid : Option String) (now : Timestamp) : Except String DB :=
  if db.users.any (fun u => u.user_id = user_id || u.email = email) then
    .error "sqlite3.IntegrityError"
  else
    .ok { db with users := db.users ++
      [⟨user_id, email, password_hash, name, orcid, now, now⟩] }

/-- database.py `get_user_by_email` (lines 115-126): first row whose email
matches. -/
def get_user_by_email (db : DB) (email : String) : Option User :=
  db.users.find? (fun u => u.email = email)

/-- database.py `get_user_by_id` (lines 129-140). -/
def get_user_by_id (db : DB) (user_id : String) : Option User :=
  db.users.find? (fun u => u.user_id = user_id)

/-- database.py `update_user` (lines 143-182): UPDATE the matching user
rows; `updated_at` is always written, the other columns only when the
corresponding argument is present (`orcid` is normalised to NULL when
falsy, line 167). Returns the new store and `rowcount > 0`. -/
def update_user (db : DB) (user_id : String)
    (name email orcid password_hash : Option String) (now : Timestamp) :
    DB × Bool :=
  let upd : User → User := fun u =>
    let u := { u with updated_at := now }
    let u := match name with | some n => { u with name := n } | none => u
    let u := match email with | some e => { u with email := e } | none => u
    let u := match orcid with
      | some o => { u with orcid := if o ≠ "" then some o else none }
      | none => u
    match password_hash with
      | some p => { u with password_hash := p }
      | none => u
  ({ db with users := db.users.map (fun u =>
      if u.user_id = user_id then upd u else u) },
   db.users.any (fun u => u.user_id = user_id))

/-- database.py `delete_user` (lines 185-200): DELETE the user and all
workflow rows carrying that `user_id`; returns the new store and whether a
user row was removed. -/
def delete_user (db : DB) (user_id : String) : DB × Bool :=
  ({ users := db.users.filter (fun u => u.user_id ≠ user_id),
     workflows := db.workflows.filter (fun w => w.user_id ≠ user_id) },
   db.users.any (fun u => u.user_id = user_id))

/-- database.py `check_email_exists` (lines 203-216); `exclude_user_id`
participates only when truthy (`if exclude_user_id:`). -/
def check_email_exists (db : DB) (email : String)
    (exclude_user_id : Option String) : Bool :=
  if truthy exclude_user_id then
    db.users.any (fun u =>
      u.email = email && some u.user_id ≠ exclude_user_id)
  else
    db.users.any (fun u => u.email = email)

/-- database.py `create_workflow` (lines 219-249): INSERT a workflow row.
`workflow_id` is the PRIMARY KEY, so a duplicate raises `IntegrityError`;
otherwise the row is appended with `results`, `error_message` and
`completed_at` NULL and both timestamps defaulted to now. -/
def create_workflow (db : DB)
    (workflow_id user_id name description species_name ecosystem_type
     geometry_type geometry_wkt parameters status : String)
    (now : Timestamp) : Except String DB :=
  if db.workflows.any (fun w => w.workflow_id = workflow_id) then
    .error "sqlite3.IntegrityError"
  else
    .ok { db with workflows := db.workflows ++
      [⟨workflow_id, user_id, name, description, species_name,
        ecosystem_type, geometry_type, geometry_wkt, parameters, status,
        none, none, now, now, none⟩] }

/-- database.py `get_user_workflows` (lines 252-266): the rows of one
user. (The SQL orders by `created_at DESC`; the ordering permutes the
result and is irrelevant to the properties below, so rows are kept in
table order.) -/
def get_user_workflows (db : DB) (user_id : String) : List Workflow :=
  db.workflows.filter (fun w => w.user_id = user_id)

/-- database.py `get_workflow_by_id` (lines 269-280). -/
def get_workflow_by_id (db : DB) (workflow_id : String) : Option Workflow :=
  db.workflows.find? (fun w => w.workflow_id = workflow_id)

/-- The effect of database.py `update_workflow_status` on one matching
row (lines 293-307): `status` and `updated_at` are always written,
`completed_at` only when the new status is "completed", `results` and
`error_message` only when the corresponding argument is truthy
(`if results:`, `if error:`). -/
def update_row (w : Workflow) (status : String)
    (results error : Option String) (now : Timestamp) : Workflow :=
  let w := { w with status := status, updated_at := now }
  let w := if status = "completed" then { w with completed_at := some now }
           else w
  let w := if truthy results then { w with results := results } else w
  if truthy error then { w with error_message := error } else w

/-- database.py `update_workflow_status` (lines 283-314): UPDATE every row
whose `workflow_id` matches (at most one, by the PRIMARY KEY). -/
def update_workflow_status (db : DB) (workflow_id status : String)
    (results error : Option String) (now : Timestamp) : DB :=
  { db with workflows := db.workflows.map (fun w =>
      if w.workflow_id = workflow_id then update_row w status results error now
      else w) }

/-- database.py `delete_workflow` (lines 317-328): DELETE by id; returns
the new store and `rowcount > 0`. -/
def delete_workflow (db : DB) (workflow_id : String) : DB × Bool :=
  ({ db with workflows :=
      db.workflows.filter (fun w => w.workflow_id ≠ workflow_id) },
   db.workflows.any (fun w => w.workflow_id = workflow_id))

/-! ## main.py: request/response models and endpoint handlers -/

/-- The outcome of a FastAPI handler: a JSON body, an `HTTPException`
(status code, detail), or an unhandled Python exception, which FastAPI
surfaces as an HTTP 500 Internal Server Error. -/
inductive ApiResult (α : Type) where
  | ok (value : α)
  | httpError (status_code : Nat) (detail : String)
  | pythonError (exc : String)
deriving Repr, DecidableEq

/-- main.py `UserCreate` (lines 99-102). -/
structure UserCreate where
  email : String
  password : String
  name : String
deriving Repr, DecidableEq

/-- A Python dict value, kept abstract: only its `str()` body matters
here. `str(d)` of a dict is always brace-delimited, hence non-empty. -/
structure PyDict where
  body : String
deriving Repr, DecidableEq

/-- `str()` of a Python dict: its brace-delimited repr. -/
def PyDict.str (d : PyDict) : String := "\x7b" ++ d.body ++ "\x7d"

/-- `str()` of an `Optional[dict]`: `str(None)` is the text None. -/
def py_str_opt_dict : Option PyDict → String
  | none => "None"
  | some d => d.str

/-- The `directive_types` entry of the submitted parameters dict: a list
(the UI sends one) or some other value; main.py lines 194-198 join a list
with ";" and `str()` anything else. -/
inductive DirectiveTypes where
  | ofList (values : List String)
  | other (str_value : String)
deriving Repr, DecidableEq

/-- main.py `WorkflowSubmit` (lines 110-117). Of the `parameters` dict
the handler reads `get("time_period", "")` and
`get("directive_types", [])` and stores `str(parameters)`; those three
projections are the embedded fields. -/
structure WorkflowSubmit where
  name : String
  description : String
  species_name : String
  ecosystem_type : String
  geometry_type : String
  geometry_wkt : String
  time_period : String
  directive_types : DirectiveTypes
  parameters_str : String
deriving Repr, DecidableEq

/-- main.py lines 195-198: the `directive_types` form value. -/
def render_directive_types : DirectiveTypes → String
  | .ofList values => String.intercalate ";" values
  | .other s => s

/-- main.py `WorkflowWebhook` (lines 120-124). The `results` dict is kept
abstract (only `str(webhook_data.results)` is ever used). -/
structure WorkflowWebhook where
  workflow_id : String
  status : String
  results : Option PyDict
  error_message : Option String
deriving Repr, DecidableEq

/-- The parsed JSON body of the external Workflow API response: the three
keys the handler reads (main.py lines 280, 308, 313), each possibly
absent. -/
structure ExtPayload where
  workflow_id : Option String
  id : Option String
  status : Option String
deriving Repr, DecidableEq

/-- The observable result of the `httpx` POST to the external Workflow
API (main.py lines 248-261): a transport-level `httpx.HTTPError`, or a
response with a status code, a body text, and the body parsed as JSON
(`none` when `response.json()` raises `ValueError`). -/
inductive ExtCallResult where
  | transportError (msg : String)
  | response (status_code : Nat) (text : String) (payload : Option ExtPayload)
deriving Repr, DecidableEq

/-- Python `a or b` over two `Optional[str]` values: the first operand
when it is truthy, the second otherwise (main.py line 280). -/
def py_or (a b : Option String) : Option String :=
  if truthy a then a else b

/-- The two fixed template files zipped by `build_rocrate_zip` (main.py
lines 68-95). The files live under `templates/terrestrial-sdm/`, outside
the embedded sources, so their byte contents are abstract. -/
structure Templates where
  workflow_yaml : String
  rocrate_json : String
deriving Repr, DecidableEq

/-- main.py `build_rocrate_zip` (lines 68-95): the archive always holds
exactly the two template files, under fixed entry names, independent of
the submitted `context` (the templating calls are commented out). The
archive is modelled as its entry list; compression is byte-level detail. -/
def build_rocrate_zip (t : Templates) (context : List (String × String)) :
    List (String × String) :=
  [("workflow.yaml", t.workflow_yaml),
   ("ro-crate-metadata.json", t.rocrate_json)]

/-- main.py `api_signup` (lines 161-170). The bcrypt hash of the password
and the fresh uuid and JWT are oracle arguments. Returns the JSON body
`(access_token, user_id)` and the new store. -/
def api_signup (db : DB) (user : UserCreate)
    (fresh_user_id hashed_pw token : String) (now : Timestamp) :
    ApiResult (String × String) × DB :=
  match get_user_by_email db user.email with
  | some _ => (.httpError 400 "Email already registered", db)
  | none =>
    match create_user db fresh_user_id user.email hashed_pw user.name none now with
    | .error exc => (.pythonError exc, db)
    | .ok db2 => (.ok (token, fresh_user_id), db2)

/-- main.py `api_submit_workflow` (lines 183-314) as written. After token
verification the handler computes the form values and the RO-Crate zip
(lines 192-241) and then executes
  line 242:  print(f"Params: \x7bparams\x7d")
The name `params` has no binding: its only assignment (lines 222-226) is
commented out into a string literal, and no global of that name exists.
Python therefore raises NameError at line 242, before the `httpx` POST of
lines 248-261, on every authenticated request; FastAPI answers 500 and
the store is untouched. -/
def api_submit_workflow (db : DB) (verified_user : Option String)
    (workflow : WorkflowSubmit) (templates : Templates)
    (ext : ExtCallResult) (now : Timestamp) :
    ApiResult (String × String) × DB :=
  match verified_user with
  | none => (.httpError 401 "Invalid or expired token", db)
  | some user_id =>
    let time_period := workflow.time_period
    let directive_types := render_directive_types workflow.directive_types
    let rocrate_context :=
      [("workflow_name", workflow.name),
       ("description", workflow.description),
       ("species_name", workflow.species_name),
       ("ecosystem_type", workflow.ecosystem_type),
       ("geometry_type", workflow.geometry_type),
       ("geometry_wkt", workflow.geometry_wkt),
       ("time_period", time_period),
       ("directive_types", directive_types)]
    let rocrate_zip := build_rocrate_zip templates rocrate_context
    (.pythonError "NameError: name params is not defined", db)

/-- main.py lines 247-314: the remainder of `api_submit_workflow` from
the `httpx` POST on — the code that would run had line 242 not raised
(see `api_submit_workflow`). Embedded separately so the submission and
error-handling logic itself can be examined: a transport error or a
status ≥ 300 or unparsable JSON or a missing/falsy job identifier is a
502 with the upstream information in the detail; otherwise the row is
INSERTed with the status field of the response (default "submitted") and
`(workflow_id, status)` is returned. -/
def submit_handle_response (db : DB) (user_id : String)
    (workflow : WorkflowSubmit) (ext : ExtCallResult) (now : Timestamp) :
    ApiResult (String × String) × DB :=
  match ext with
  | .transportError msg =>
    (.httpError 502 ("Workflow API error: " ++ msg), db)
  | .response status_code text payload? =>
    if status_code ≥ 300 then
      (.httpError 502
        ("Workflow API error: " ++ toString status_code ++ " " ++ text), db)
    else
      match payload? with
      | none => (.httpError 502 "Workflow API returned invalid JSON", db)
      | some payload =>
        match py_or payload.workflow_id payload.id with
        | none => (.httpError 502 "Workflow API did not return workflow_id", db)
        | some workflow_id =>
          if workflow_id = "" then
            (.httpError 502 "Workflow API did not return workflow_id", db)
          else
            let status := payload.status.getD "submitted"
            match create_workflow db workflow_id user_id workflow.name
                workflow.description workflow.species_name
                workflow.ecosystem_type workflow.geometry_type
                workflow.geometry_wkt workflow.parameters_str status now with
            | .error exc => (.pythonError exc, db)
            | .ok db2 => (.ok (workflow_id, status), db2)

/-- main.py `workflow_webhook` (lines 318-334): "completed" stores
`str(webhook_data.results)` as the results, "failed" stores the error
message, anything else touches nothing; the response body is always
`status: webhook processed`. The `workflow_id` field of the body is
ignored; the path parameter is used. -/
def workflow_webhook (db : DB) (workflow_id : String)
    (webhook_data : WorkflowWebhook) (now : Timestamp) :
    ApiResult String × DB :=
  if webhook_data.status = "completed" then
    (.ok "webhook processed",
     update_workflow_status db workflow_id "completed"
       (some (py_str_opt_dict webhook_data.results)) none now)
  else if webhook_data.status = "failed" then
    (.ok "webhook processed",
     update_workflow_status db workflow_id "failed"
       none webhook_data.error_message now)
  else
    (.ok "webhook processed", db)

/-- main.py `api_get_workflows` (lines 337-346). -/
def api_get_workflows (db : DB) (verified_user : Option String) :
    ApiResult (List Workflow) × DB :=
  match verified_user with
  | none => (.httpError 401 "Invalid or expired token", db)
  | some user_id => (.ok (get_user_workflows db user_id), db)

/-- main.py `api_delete_workflow` (lines 352-370): 404 when the workflow
does not exist or belongs to another user; otherwise the row is deleted
and `status: deleted` returned. -/
def api_delete_workflow (db : DB) (verified_user : Option String)
    (workflow_id : String) : ApiResult String × DB :=
  match verified_user with
  | none => (.httpError 401 "Invalid or expired token", db)
  | some user_id =>
    match get_workflow_by_id db workflow_id with
    | none => (.httpError 404 "Workflow not found", db)
    | some workflow =>
      if workflow.user_id ≠ user_id then
        (.httpError 404 "Workflow not found", db)
      else
        (.ok "deleted", (delete_workflow db workflow_id).1)

/-- What the results page renders, as far as access control goes. -/
inductive ResultsView where
  | redirectLogin
  | notFound
  | results (workflow : Workflow)
deriving Repr, DecidableEq

/-- main.py `results_page` (lines 1898-1915 and on): redirect to /login
without a session, "Workflow not found" when the id is unknown or the row
belongs to another user, the results view otherwise. `session_user` is
the result of `check_auth()`. -/
def results_page (db : DB) (session_user : Option String)
    (workflow_id : String) : ResultsView :=
  match session_user with
  | none => .redirectLogin
  | some user_id =>
    match get_workflow_by_id db workflow_id with
    | none => .notFound
    | some workflow =>
      if workflow.user_id ≠ user_id then .notFound
      else .results workflow

/-- main.py account page, `save_profile` (lines 1196-1223): empty name or
email, an email taken by another user, or a malformed ORCID abort with a
notification and no write; otherwise `update_user` runs with
`orcid if orcid else ""`. The ORCID regex check is the oracle argument
`orcid_ok`. -/
def save_profile (db : DB) (user_id : String)
    (name email : String) (orcid : Option String) (orcid_ok : Bool)
    (now : Timestamp) : DB :=
  if name = "" || email = "" then db
  else if check_email_exists db email (some user_id) then db
  else if truthy orcid && !orcid_ok then db
  else
    (update_user db user_id (some name) (some email)
      (some (if truthy orcid then orcid.getD "" else "")) none now).1

/-- main.py account page, `change_password` (lines 1257-1287): after the
validation checks (all non-empty, current password verifies, confirmation
matches, length ≥ 6 — folded into `checks_pass`), `update_user` writes
the new hash. -/
def change_password (db : DB) (user_id : String) (checks_pass : Bool)
    (new_hash : String) (now : Timestamp) : DB :=
  if checks_pass then
    (update_user db user_id none none none (some new_hash) now).1
  else db

/-! ## Operations and traces

Every code path of the repository that writes the store appears below:
`create_user` (signup), `create_workflow` (the submit handler, lines
297-309), `update_workflow_status` (the webhook, lines 328-332),
`delete_workflow` (the delete endpoint, line 368), `delete_user` (the
account page, line 1327) and `update_user` (profile save at line 1219,
password change at line 1280). The read-only endpoints are included so a
trace can mention them. -/

inductive Op where
  | signup (user : UserCreate) (fresh_user_id hashed_pw token : String)
  | submit (verified_user : Option String) (workflow : WorkflowSubmit)
      (templates : Templates) (ext : ExtCallResult)
  | submitCall (user_id : String) (workflow : WorkflowSubmit)
      (ext : ExtCallResult)
  | webhook (workflow_id : String) (webhook_data : WorkflowWebhook)
  | listWorkflows (verified_user : Option String)
  | deleteWorkflowOp (verified_user : Option String) (workflow_id : String)
  | deleteAccount (user_id : String)
  | saveProfile (user_id name email : String) (orcid : Option String)
      (orcid_ok : Bool)
  | changePasswordOp (user_id : String) (checks_pass : Bool)
      (new_hash : String)
deriving Repr, DecidableEq

/-- Whether an operation is a call of the webhook endpoint. -/
def Op.isWebhook : Op → Bool
  | .webhook _ _ => true
  | _ => false

/-- The store after one operation. `submit` is the endpoint as written;
`submitCall` is its lines 247-314 (see `submit_handle_response`). -/
def step (db : DB) : Op → Timestamp → DB
  | .signup u uid hpw tok, now => (api_signup db u uid hpw tok now).2
  | .submit vu wf tpl ext, now => (api_submit_workflow db vu wf tpl ext now).2
  | .submitCall uid wf ext, now => (submit_handle_response db uid wf ext now).2
  | .webhook wid wd, now => (workflow_webhook db wid wd now).2
  | .listWorkflows vu, _ => (api_get_workflows db vu).2
  | .deleteWorkflowOp vu wid, _ => (api_delete_workflow db vu wid).2
  | .deleteAccount uid, _ => (delete_user db uid).1
  | .saveProfile uid n e o ok, now => save_profile db uid n e o ok now
  | .changePasswordOp uid ok h, now => change_password db uid ok h now

/-- The store after a sequence of timestamped operations. -/
def run (db : DB) : List (Op × Timestamp) → DB
  | [] => db
  | (op, t) :: rest => run (step db op t) rest

/-- The workflow status values an operation can itself introduce into the
store: only `submitCall` creates rows, with the status field of the
external response (default "submitted"). -/
def Op.introduced_statuses : Op → List String
  | .submitCall _ _ (.response _ _ (some payload)) =>
      [payload.status.getD "submitted"]
  | _ => []

/-! ## Concrete fixtures (for witnesses and counterexamples) -/

/-- A well-formed submit request body. -/
def req0 : WorkflowSubmit :=
  { name := "Bufo SDM", description := "demo run",
    species_name := "Bufo bufo", ecosystem_type := "terrestrial",
    geometry_type := "polygon",
    geometry_wkt := "POLYGON((0 0,1 0,1 1,0 0))",
    time_period := "2011-2040",
    directive_types := .ofList ["Habitats Directive"],
    parameters_str := "\x7btime_period: 2011-2040\x7d" }

/-- Concrete template file contents. -/
def templates0 : Templates := ⟨"steps: []", "\x7b\x7d"⟩

/-- A signup request. -/
def user0 : UserCreate := ⟨"ann@example.org", "hunter22", "Ann"⟩

/-- A second signup request, same email as `user0`. -/
def user0b : UserCreate := ⟨"ann@example.org", "other-pw", "Imposter"⟩

/-- The empty store. -/
def db0 : DB := ⟨[], []⟩

/-- Store with the one user u1 (signup of `user0` at tick 0). -/
def dbU : DB := (api_signup db0 user0 "u1" "hash1" "tok1" 0).2

/-- A successful external submit response whose JSON has an `id` and no
`status` key. -/
def extOkNoStatus : ExtCallResult :=
  .response 201 "accepted" (some ⟨some "w1", none, none⟩)

/-- Store with user u1 and workflow w1 (created by the submit logic of
lines 247-314 at tick 0; status defaults to "submitted"). -/
def dbW : DB := (submit_handle_response dbU "u1" req0 extOkNoStatus 0).2

/-- `dbW` after a failed webhook call carrying an error message. -/
def dbF : DB :=
  (workflow_webhook dbW "w1" ⟨"w1", "failed", none, some "disk full"⟩ 1).2

/-! ## Helper lemmas -/

theorem update_row_workflow_id (w : Workflow) (st : String)
    (r e : Option String) (now : Timestamp) :
    (update_row w st r e now).workflow_id = w.workflow_id := by
  simp only [update_row]
  split_ifs <;> simp_all

theorem update_row_status (w : Workflow) (st : String)
    (r e : Option String) (now : Timestamp) :
    (update_row w st r e now).status = st := by
  simp only [update_row]
  split_ifs <;> simp_all

theorem update_row_results_of_truthy (w : Workflow) (st : String)
    (r e : Option String) (now : Timestamp) (h : truthy r = true) :
    (update_row w st r e now).results = r := by
  simp only [update_row, h]
  split_ifs <;> simp_all

theorem update_row_results_of_not_truthy (w : Workflow) (st : String)
    (r e : Option String) (now : Timestamp) (h : truthy r = false) :
    (update_row w st r e now).results = w.results := by
  simp only [update_row, h]
  split_ifs <;> simp_all

theorem update_row_error (w : Workflow) (st : String)
    (r e : Option String) (now : Timestamp) :
    (update_row w st r e now).error_message =
      (if truthy e then e else w.error_message) := by
  simp only [update_row]
  split_ifs <;> simp_all

theorem update_row_completed_at (w : Workflow) (st : String)
    (r e : Option String) (now : Timestamp) :
    (update_row w st r e now).completed_at =
      (if st = "completed" then some now else w.completed_at) := by
  simp only [update_row]
  split_ifs <;> simp_all

/-- Normal form of `update_row`: the written columns, spelt out. -/
theorem update_row_eq (w : Workflow) (st : String)
    (r e : Option String) (now : Timestamp) :
    update_row w st r e now =
      { w with status := st, updated_at := now,
               completed_at :=
                 if st = "completed" then some now else w.completed_at,
               results := if truthy r then r else w.results,
               error_message := if truthy e then e else w.error_message } := by
  simp only [update_row]
  split_ifs <;> rfl

/-- Looking up the targeted id after `update_workflow_status` yields the
updated row (the update preserves ids, and matches exactly the rows the
lookup matches). -/
theorem get_workflow_by_id_update (db : DB) (wid st : String)
    (r e : Option String) (now : Timestamp) :
    get_workflow_by_id (update_workflow_status db wid st r e now) wid
      = (get_workflow_by_id db wid).map (fun w => update_row w st r e now) := by
  simp only [get_workflow_by_id, update_workflow_status]
  induction db.workflows with
  | nil => rfl
  | cons a l ih =>
    by_cases h : a.workflow_id = wid
    · simp [List.find?_cons, h, update_row_workflow_id]
    · simp only [List.map_cons, if_neg h]
      rw [List.find?_cons_of_neg, List.find?_cons_of_neg, ih] <;>
        simp [h]

/-- `str()` of an `Optional[dict]` is never the empty string. -/
theorem py_str_opt_dict_truthy (r : Option PyDict) :
    truthy (some (py_str_opt_dict r)) = true := by
  cases r with
  | none => decide
  | some d =>
    simp only [truthy, py_str_opt_dict, PyDict.str, decide_eq_true_eq]
    intro h
    have hlen := congrArg String.length h
    simp [String.length_append] at hlen
    exact absurd hlen.2 (by decide)

/-- A row surviving a filter is a row of the original table. -/
theorem mem_of_mem_filter_wf {p : Workflow → Bool} {l : List Workflow}
    {w : Workflow} (h : w ∈ l.filter p) : w ∈ l :=
  List.mem_of_mem_filter h

/-- The workflow row of `dbW`, spelt out. -/
def wf1 : Workflow :=
  ⟨"w1", "u1", "Bufo SDM", "demo run", "Bufo bufo", "terrestrial",
   "polygon", "POLYGON((0 0,1 0,1 1,0 0))",
   "\x7btime_period: 2011-2040\x7d", "submitted", none, none, 0, 0, none⟩

theorem dbW_w1 : get_workflow_by_id dbW "w1" = some wf1 := by decide

/-- Store with two users (u1, u2) and a workflow each (w1, w2). The w2
response carries the identifier under the `id` key. -/
def dbTwo : DB :=
  (submit_handle_response
    (api_signup dbW ⟨"bob@example.org", "pw", "Bob"⟩ "u2" "hash2" "tok2" 1).2
    "u2" req0 (.response 200 "ok" (some ⟨none, some "w2", none⟩)) 1).2

/-- The second workflow row of `dbTwo`, spelt out. -/
def wf2 : Workflow :=
  ⟨"w2", "u2", "Bufo SDM", "demo run", "Bufo bufo", "terrestrial",
   "polygon", "POLYGON((0 0,1 0,1 1,0 0))",
   "\x7btime_period: 2011-2040\x7d", "submitted", none, none, 1, 1, none⟩

/-- Email uniqueness across the users table (the UNIQUE constraint of the
schema). -/
def unique_emails (db : DB) : Prop :=
  db.users.Pairwise (fun a b => a.email ≠ b.email)

/-! ## Claims -/

/-- C1: the claim says every authenticated well-formed submit request
reaches the HTTP POST to the external execution service and, on a
successful response with an identifier, returns that identifier and
persists the row. The code cannot: line 242 prints the undefined name
`params` (its only assignment, lines 222-226, is commented out into a
string literal), so every authenticated request raises NameError — an
HTTP 500 — strictly before the `httpx` call of lines 248-261, and the
store is never written. The theorem evaluates the handler on every
authenticated input: the outcome is the unhandled NameError and the
unchanged store, for every request body, template content and external
service behaviour. -/
theorem C1_submit_never_reaches_call (db : DB) (user_id : String)
    (workflow : WorkflowSubmit) (templates : Templates)
    (ext : ExtCallResult) (now : Timestamp) :
    api_submit_workflow db (some user_id) workflow templates ext now =
      (.pythonError "NameError: name params is not defined", db) := rfl

/-- C5: a created workflow is visible only to its owner: every row the
list endpoint returns carries the callers user id, and the results page
answers Workflow not found when the row is missing or owned by someone
else. -/
theorem C5_owner_visibility (db : DB) (user_id : String) :
    (∀ w ∈ get_user_workflows db user_id, w.user_id = user_id) ∧
    api_get_workflows db (some user_id) =
      (.ok (get_user_workflows db user_id), db) ∧
    (∀ workflow_id w, get_workflow_by_id db workflow_id = some w →
      w.user_id ≠ user_id →
      results_page db (some user_id) workflow_id = .notFound) ∧
    (∀ workflow_id, get_workflow_by_id db workflow_id = none →
      results_page db (some user_id) workflow_id = .notFound) := by
  refine ⟨?_, rfl, ?_, ?_⟩
  · intro w hw
    simp only [get_user_workflows] at hw
    simpa using (List.mem_filter.mp hw).2
  · intro wid w hw hne
    simp [results_page, hw, hne]
  · intro wid h
    simp [results_page, h]

theorem C5_owner_visibility_witness :
    wf1.user_id = "u1" ∧
    results_page dbW (some "u2") "w1" = .notFound ∧
    results_page dbW (some "u1") "w9" = .notFound :=
  ⟨(C5_owner_visibility dbW "u1").1 wf1 (by decide),
   (C5_owner_visibility dbW "u2").2.2.1 "w1" wf1 (by decide) (by decide),
   (C5_owner_visibility dbW "u1").2.2.2 "w9" (by decide)⟩

/-- C6: deleting a user removes the user row and every workflow of that
user, and keeps exactly the rows of other users (the two tables become
the sub-lists of rows with a different user id, in order). -/
theorem C6_delete_user_cascades (db : DB) (user_id : String) :
    (∀ w ∈ (delete_user db user_id).1.workflows, w.user_id ≠ user_id) ∧
    (∀ u ∈ (delete_user db user_id).1.users, u.user_id ≠ user_id) ∧
    (delete_user db user_id).1.workflows
      = db.workflows.filter (fun w => w.user_id ≠ user_id) ∧
    (delete_user db user_id).1.users
      = db.users.filter (fun u => u.user_id ≠ user_id) ∧
    (∀ w ∈ db.workflows, w.user_id ≠ user_id →
      w ∈ (delete_user db user_id).1.workflows) ∧
    (∀ u ∈ db.users, u.user_id ≠ user_id →
      u ∈ (delete_user db user_id).1.users) := by
  refine ⟨?_, ?_, rfl, rfl, ?_, ?_⟩
  · intro w hw
    simpa using (List.mem_filter.mp hw).2
  · intro u hu
    simpa using (List.mem_filter.mp hu).2
  · intro w hw hne
    exact List.mem_filter.mpr ⟨hw, by simpa using hne⟩
  · intro u hu hne
    exact List.mem_filter.mpr ⟨hu, by simpa using hne⟩

theorem C6_delete_user_cascades_witness :
    wf2.user_id ≠ "u1" ∧
    wf2 ∈ (delete_user dbTwo "u1").1.workflows ∧
    (delete_user dbTwo "u1").1.workflows
      = dbTwo.workflows.filter (fun w => w.user_id ≠ "u1") :=
  ⟨(C6_delete_user_cascades dbTwo "u1").1 wf2 (by decide),
   (C6_delete_user_cascades dbTwo "u1").2.2.2.2.1 wf2 (by decide) (by decide),
   (C6_delete_user_cascades dbTwo "u1").2.2.1⟩

/-- C9: a webhook call whose status is neither completed nor failed falls
through both branches: the store is returned untouched — no row and no
column, `updated_at` included, is written — and the response body is
still webhook processed. -/
theorem C9_webhook_other_status_noop (db : DB) (workflow_id : String)
    (webhook_data : WorkflowWebhook) (now : Timestamp)
    (h1 : webhook_data.status ≠ "completed")
    (h2 : webhook_data.status ≠ "failed") :
    workflow_webhook db workflow_id webhook_data now =
      (.ok "webhook processed", db) := by
  simp [workflow_webhook, h1, h2]

theorem C9_webhook_other_status_noop_witness :
    workflow_webhook dbW "w1" ⟨"w1", "running", none, none⟩ 1 =
      (.ok "webhook processed", dbW) :=
  C9_webhook_other_status_noop dbW "w1" ⟨"w1", "running", none, none⟩ 1
    (by decide) (by decide)

/-- C10: the delete endpoint enforces ownership: an unknown id or a row
of another user is a 404 with the store untouched; the owner gets the
row removed and status deleted back. -/
theorem C10_delete_enforces_ownership (db : DB)
    (user_id workflow_id : String) :
    (get_workflow_by_id db workflow_id = none →
      api_delete_workflow db (some user_id) workflow_id =
        (.httpError 404 "Workflow not found", db)) ∧
    (∀ w, get_workflow_by_id db workflow_id = some w →
      w.user_id ≠ user_id →
      api_delete_workflow db (some user_id) workflow_id =
        (.httpError 404 "Workflow not found", db)) ∧
    (∀ w, get_workflow_by_id db workflow_id = some w →
      w.user_id = user_id →
      api_delete_workflow db (some user_id) workflow_id =
        (.ok "deleted",
         ⟨db.users,
          db.workflows.filter (fun w2 => w2.workflow_id ≠ workflow_id)⟩)) := by
  refine ⟨?_, ?_, ?_⟩
  · intro h
    simp [api_delete_workflow, h]
  · intro w hw hne
    simp [api_delete_workflow, hw, hne]
  · intro w hw heq
    simp [api_delete_workflow, hw, heq, delete_workflow]

theorem C10_delete_enforces_ownership_witness :
    api_delete_workflow dbW (some "u2") "w1" =
      (.httpError 404 "Workflow not found", dbW) ∧
    api_delete_workflow dbW (some "u1") "w9" =
      (.httpError 404 "Workflow not found", dbW) ∧
    api_delete_workflow dbW (some "u1") "w1" =
      (.ok "deleted",
       ⟨dbW.users, dbW.workflows.filter (fun w2 => w2.workflow_id ≠ "w1")⟩) :=
  ⟨(C10_delete_enforces_ownership dbW "u2" "w1").2.1 wf1 (by decide) (by decide),
   (C10_delete_enforces_ownership dbW "u1" "w9").1 (by decide),
   (C10_delete_enforces_ownership dbW "u1" "w1").2.2 wf1 (by decide) (by decide)⟩

/-- C8: signup answers 400 Email already registered and leaves the store
untouched when the email is taken, and it preserves email uniqueness, so
at most one user per email ever exists. -/
theorem C8_signup_rejects_duplicates (db : DB) (user : UserCreate)
    (fresh_user_id hashed_pw token : String) (now : Timestamp) :
    ((get_user_by_email db user.email).isSome →
      api_signup db user fresh_user_id hashed_pw token now =
        (.httpError 400 "Email already registered", db)) ∧
    (unique_emails db →
      unique_emails (api_signup db user fresh_user_id hashed_pw token now).2) := by
  constructor
  · intro h
    match hm : get_user_by_email db user.email with
    | some u2 => simp [api_signup, hm]
    | none => simp [hm] at h
  · intro hu
    match hm : get_user_by_email db user.email with
    | some u2 => simpa [api_signup, hm] using hu
    | none =>
      have hall : ∀ u2 ∈ db.users, u2.email ≠ user.email := by
        simpa [get_user_by_email, List.find?_eq_none] using hm
      cases hc : db.users.any
          (fun u2 => u2.user_id = fresh_user_id || u2.email = user.email) with
      | true => simpa [api_signup, hm, create_user, hc] using hu
      | false =>
        have hgoal : (api_signup db user fresh_user_id hashed_pw token now).2
            = { db with users := db.users ++
                [⟨fresh_user_id, user.email, hashed_pw, user.name, none,
                  now, now⟩] } := by
          simp [api_signup, hm, create_user, hc]
        rw [hgoal]
        unfold unique_emails at hu ⊢
        refine List.pairwise_append.mpr ⟨hu, by simp, ?_⟩
        intro a ha b hb
        rw [List.mem_singleton] at hb
        subst hb
        exact hall a ha

theorem C8_signup_rejects_duplicates_witness :
    api_signup dbU user0b "u9" "hash9" "tok9" 5 =
      (.httpError 400 "Email already registered", dbU) ∧
    unique_emails (api_signup db0 user0 "u1" "hash1" "tok1" 0).2 :=
  ⟨(C8_signup_rejects_duplicates dbU user0b "u9" "hash9" "tok9" 5).1
     (by decide),
   (C8_signup_rejects_duplicates db0 user0 "u1" "hash1" "tok1" 0).2
     List.Pairwise.nil⟩

/-- C2 counterexample: the claim says a failed webhook call always leaves
the error message of the call in the row. A failed call whose
`error_message` is absent (None) does not write the column
(`if error:` in update_workflow_status is false), so a previous message
survives: in store `dbF` (row w1 failed with message disk full) a second
failed call with no message leaves disk full in place, not None. -/
theorem C2_counterexample :
    (⟨"w1", "failed", none, none⟩ : WorkflowWebhook).status = "failed" ∧
    (⟨"w1", "failed", none, none⟩ : WorkflowWebhook).error_message = none ∧
    (get_workflow_by_id
        (workflow_webhook dbF "w1" ⟨"w1", "failed", none, none⟩ 2).2
        "w1").map Workflow.error_message = some (some "disk full") ∧
    (get_workflow_by_id
        (workflow_webhook dbF "w1" ⟨"w1", "failed", none, none⟩ 2).2
        "w1").map Workflow.error_message ≠
      some (⟨"w1", "failed", none, none⟩ : WorkflowWebhook).error_message :=
  ⟨rfl, rfl, by decide, by decide⟩

/-- C2 (amended): a completed call sets the completion timestamp, the
status and the results column (the Python `str()` of the payload),
touching nothing else of the row; a failed call sets the status, leaves
`completed_at` (and `results`) unchanged — in particular unset if it was
unset — and writes `error_message` to the calls message exactly when
that message is present and non-empty, leaving the previous value in
place otherwise. -/
theorem C2_webhook_updates (db : DB) (wid : String) (w : Workflow)
    (wd : WorkflowWebhook) (now : Timestamp)
    (hw : get_workflow_by_id db wid = some w) :
    (wd.status = "completed" →
      get_workflow_by_id (workflow_webhook db wid wd now).2 wid = some
        { w with status := "completed", updated_at := now,
                 completed_at := some now,
                 results := some (py_str_opt_dict wd.results) }) ∧
    (wd.status = "failed" →
      get_workflow_by_id (workflow_webhook db wid wd now).2 wid = some
        { w with status := "failed", updated_at := now,
                 error_message :=
                   if truthy wd.error_message then wd.error_message
                   else w.error_message }) := by
  constructor
  · intro hc
    have hwh : (workflow_webhook db wid wd now).2 =
        update_workflow_status db wid "completed"
          (some (py_str_opt_dict wd.results)) none now := by
      simp [workflow_webhook, hc]
    rw [hwh, get_workflow_by_id_update, hw, Option.map_some', update_row_eq]
    simp [py_str_opt_dict_truthy, show truthy none = false from rfl]
  · intro hf
    have hne : ¬ (wd.status = "completed") := by simp [hf]
    have hwh : (workflow_webhook db wid wd now).2 =
        update_workflow_status db wid "failed" none wd.error_message now := by
      simp [workflow_webhook, hf, hne]
    rw [hwh, get_workflow_by_id_update, hw, Option.map_some', update_row_eq]
    simp [show truthy none = false from rfl]

/-- The webhook payload used by the C2 witness. -/
def wdC2 : WorkflowWebhook :=
  ⟨"w1", "completed", some ⟨"auc: 0.9"⟩, none⟩

theorem C2_webhook_updates_witness :
    get_workflow_by_id (workflow_webhook dbW "w1" wdC2 1).2 "w1" =
      some { wf1 with status := "completed", updated_at := 1,
                      completed_at := some 1,
                      results := some (py_str_opt_dict wdC2.results) } :=
  (C2_webhook_updates dbW "w1" wf1 wdC2 1 dbW_w1).1 rfl

/-- C4: the claim says a failing external call is surfaced as a 502 with
the upstream message, and no row is created. The 502 logic is in the code
(lines 265-282) and behaves exactly as claimed, but it is dead: the
handler raises NameError on line 242 before the call (see C1), so every
request — the failing ones included — is answered 500, never 502. The
theorem records both facts: the handler as written yields the NameError
with the store unchanged for every external behaviour, and the
error-handling suffix of lines 247-314, taken on its own, yields the
claimed 502 responses with the upstream message embedded and the store
unchanged, on each of the four failure modes. -/
theorem C4_gateway_errors (db : DB) (user_id : String)
    (workflow : WorkflowSubmit) (templates : Templates) (now : Timestamp) :
    (∀ ext, api_submit_workflow db (some user_id) workflow templates ext now =
      (.pythonError "NameError: name params is not defined", db)) ∧
    (∀ msg, submit_handle_response db user_id workflow
        (.transportError msg) now =
      (.httpError 502 ("Workflow API error: " ++ msg), db)) ∧
    (∀ status_code text payload?, status_code ≥ 300 →
      submit_handle_response db user_id workflow
          (.response status_code text payload?) now =
        (.httpError 502
          ("Workflow API error: " ++ toString status_code ++ " " ++ text),
         db)) ∧
    (∀ status_code text, status_code < 300 →
      submit_handle_response db user_id workflow
          (.response status_code text none) now =
        (.httpError 502 "Workflow API returned invalid JSON", db)) ∧
    (∀ status_code text payload, status_code < 300 →
      truthy (py_or payload.workflow_id payload.id) = false →
      submit_handle_response db user_id workflow
          (.response status_code text (some payload)) now =
        (.httpError 502 "Workflow API did not return workflow_id", db)) := by
  refine ⟨fun ext => rfl, fun msg => rfl, ?_, ?_, ?_⟩
  · intro status_code text payload? h
    simp [submit_handle_response, h]
  · intro status_code text h
    have h2 : ¬ (status_code ≥ 300) := by omega
    simp [submit_handle_response, h2]
  · intro status_code text payload h ht
    have h2 : ¬ (status_code ≥ 300) := by omega
    cases hp : py_or payload.workflow_id payload.id with
    | none => simp [submit_handle_response, h2, hp]
    | some wid =>
      rw [hp] at ht
      have hw : wid = "" := by simpa [truthy] using ht
      simp [submit_handle_response, h2, hp, hw]

theorem C4_gateway_errors_witness :
    api_submit_workflow dbU (some "u1") req0 templates0
        (.transportError "ConnectError: refused") 1 =
      (.pythonError "NameError: name params is not defined", dbU) ∧
    submit_handle_response dbU "u1" req0
        (.transportError "ConnectError: refused") 1 =
      (.httpError 502 ("Workflow API error: " ++ "ConnectError: refused"),
       dbU) ∧
    submit_handle_response dbU "u1" req0 (.response 404 "not found" none) 1 =
      (.httpError 502
        ("Workflow API error: " ++ toString 404 ++ " " ++ "not found"),
       dbU) ∧
    submit_handle_response dbU "u1" req0 (.response 200 "ok" none) 1 =
      (.httpError 502 "Workflow API returned invalid JSON", dbU) ∧
    submit_handle_response dbU "u1" req0
        (.response 200 "ok" (some ⟨some "", none, none⟩)) 1 =
      (.httpError 502 "Workflow API did not return workflow_id", dbU) :=
  ⟨(C4_gateway_errors dbU "u1" req0 templates0 1).1
     (.transportError "ConnectError: refused"),
   (C4_gateway_errors dbU "u1" req0 templates0 1).2.1 "ConnectError: refused",
   (C4_gateway_errors dbU "u1" req0 templates0 1).2.2.1 404 "not found" none
     (by decide),
   (C4_gateway_errors dbU "u1" req0 templates0 1).2.2.2.1 200 "ok"
     (by decide),
   (C4_gateway_errors dbU "u1" req0 templates0 1).2.2.2.2 200 "ok"
     ⟨some "", none, none⟩ (by decide) (by decide)⟩

/-- C3 counterexample: the claim says every workflow row is created with
status submitted. The submission logic persists
`response_payload.get("status", "submitted")` (main.py line 308): a
successful external response carrying status running creates the row
with status running. (The endpoint as written never reaches this code at
all — see C1 — so the counterexample is stated against the row-creating
suffix of lines 247-314.) -/
theorem C3_counterexample :
    (submit_handle_response dbU "u1" req0
        (.response 201 "accepted" (some ⟨some "w9", none, some "running"⟩))
        0).1 = .ok ("w9", "running") ∧
    (get_workflow_by_id (submit_handle_response dbU "u1" req0
        (.response 201 "accepted" (some ⟨some "w9", none, some "running"⟩))
        0).2 "w9").map Workflow.status = some "running" ∧
    (get_workflow_by_id (submit_handle_response dbU "u1" req0
        (.response 201 "accepted" (some ⟨some "w9", none, some "running"⟩))
        0).2 "w9").map Workflow.status ≠ some "submitted" :=
  ⟨by decide, by decide, by decide⟩

/-! ### Which operations touch the workflows table, and how -/

theorem api_signup_workflows (db : DB) (u : UserCreate)
    (uid hpw tok : String) (now : Timestamp) :
    ((api_signup db u uid hpw tok now).2).workflows = db.workflows := by
  unfold api_signup
  cases get_user_by_email db u.email with
  | some u2 => rfl
  | none =>
    unfold create_user
    split_ifs <;> rfl

theorem api_submit_workflow_workflows (db : DB) (vu : Option String)
    (wf : WorkflowSubmit) (tpl : Templates) (ext : ExtCallResult)
    (now : Timestamp) :
    ((api_submit_workflow db vu wf tpl ext now).2).workflows
      = db.workflows := by
  unfold api_submit_workflow
  cases vu <;> rfl

theorem api_get_workflows_workflows (db : DB) (vu : Option String) :
    ((api_get_workflows db vu).2).workflows = db.workflows := by
  unfold api_get_workflows
  cases vu <;> rfl

theorem save_profile_workflows (db : DB) (uid n e : String)
    (o : Option String) (ok : Bool) (now : Timestamp) :
    (save_profile db uid n e o ok now).workflows = db.workflows := by
  unfold save_profile
  split_ifs <;> rfl

theorem change_password_workflows (db : DB) (uid : String) (ok : Bool)
    (h : String) (now : Timestamp) :
    (change_password db uid ok h now).workflows = db.workflows := by
  unfold change_password
  split_ifs <;> rfl

/-- The submit logic (lines 247-314) either leaves the workflows table
unchanged (every error path) or appends exactly one row, freshly created:
no results, no error message, no completion timestamp, and the status the
operation introduces (the response status, default "submitted"). -/
theorem submit_handle_response_workflows (db : DB) (uid : String)
    (wf : WorkflowSubmit) (ext : ExtCallResult) (now : Timestamp) :
    (submit_handle_response db uid wf ext now).2.workflows = db.workflows ∨
    ∃ row : Workflow,
      (submit_handle_response db uid wf ext now).2.workflows
        = db.workflows ++ [row] ∧
      row.results = none ∧ row.error_message = none ∧
      row.completed_at = none ∧
      [row.status] = (Op.submitCall uid wf ext).introduced_statuses := by
  unfold submit_handle_response
  cases ext with
  | transportError msg => exact Or.inl rfl
  | response status_code text payload? =>
    dsimp only
    by_cases h : status_code ≥ 300
    · rw [if_pos h]; exact Or.inl rfl
    · rw [if_neg h]
      cases payload? with
      | none => exact Or.inl rfl
      | some payload =>
        dsimp only
        cases py_or payload.workflow_id payload.id with
        | none => exact Or.inl rfl
        | some wid =>
          dsimp only
          by_cases hw : wid = ""
          · rw [if_pos hw]; exact Or.inl rfl
          · rw [if_neg hw]
            unfold create_workflow
            split_ifs with hc
            · exact Or.inl rfl
            · exact Or.inr ⟨_, rfl, rfl, rfl, rfl, rfl⟩

theorem api_delete_workflow_workflows (db : DB) (vu : Option String)
    (wid : String) :
    ((api_delete_workflow db vu wid).2).workflows = db.workflows ∨
    ((api_delete_workflow db vu wid).2).workflows
      = db.workflows.filter (fun w => w.workflow_id ≠ wid) := by
  unfold api_delete_workflow
  cases vu with
  | none => exact Or.inl rfl
  | some uid =>
    dsimp only
    cases get_workflow_by_id db wid with
    | none => exact Or.inl rfl
    | some w =>
      dsimp only
      by_cases h : w.user_id ≠ uid
      · rw [if_pos h]; exact Or.inl rfl
      · rw [if_neg h]; exact Or.inr rfl

/-- C3 (amended): a successful submit (the row-creating logic of lines
247-314; the endpoint as written crashes before it, see C1) creates the
row with the status field of the external response — "submitted" only by
default, when the response carries no status — and with no results, no
error message and no completion timestamp; and no operation other than a
webhook call ever changes the status, results or error_message of an
existing row: every non-webhook operation leaves each surviving row
untouched or inserts a fresh row. -/
theorem C3_creation_status_and_exclusivity (db : DB) (now : Timestamp) :
    (∀ (user_id : String) (workflow : WorkflowSubmit) (status_code : Nat)
        (text : String) (payload : ExtPayload) (wid : String),
      status_code < 300 →
      py_or payload.workflow_id payload.id = some wid → wid ≠ "" →
      get_workflow_by_id db wid = none →
      get_workflow_by_id
        (submit_handle_response db user_id workflow
          (.response status_code text (some payload)) now).2 wid
        = some ⟨wid, user_id, workflow.name, workflow.description,
            workflow.species_name, workflow.ecosystem_type,
            workflow.geometry_type, workflow.geometry_wkt,
            workflow.parameters_str, payload.status.getD "submitted",
            none, none, now, now, none⟩) ∧
    (∀ op : Op, Op.isWebhook op = false →
      ∀ w2 ∈ (step db op now).workflows,
        w2 ∈ db.workflows ∨
          (w2.results = none ∧ w2.error_message = none ∧
           w2.completed_at = none)) := by
  constructor
  · intro user_id workflow status_code text payload wid h1 h2 h3 h4
    have hge : ¬ (status_code ≥ 300) := by omega
    have h4f : db.workflows.find? (fun w => w.workflow_id = wid)
        = none := h4
    have hany : db.workflows.any (fun w => w.workflow_id = wid)
        = false := by
      rw [List.any_eq_false]
      intro x hx
      have := List.find?_eq_none.mp h4f x hx
      simpa using this
    simp only [submit_handle_response, if_neg hge, h2, if_neg h3,
      create_workflow, hany, Bool.false_eq_true, if_false]
    simp [get_workflow_by_id, List.find?_append, h4f]
  · intro op hop w2 hw2
    cases op with
    | webhook wid wd => simp [Op.isWebhook] at hop
    | signup u uid hpw tok =>
      simp only [step] at hw2
      rw [api_signup_workflows] at hw2
      exact Or.inl hw2
    | submit vu wf tpl ext =>
      simp only [step] at hw2
      rw [api_submit_workflow_workflows] at hw2
      exact Or.inl hw2
    | submitCall uid wf ext =>
      simp only [step] at hw2
      rcases submit_handle_response_workflows db uid wf ext now with
        h | ⟨row, hr, r1, r2, r3, _⟩
      · rw [h] at hw2; exact Or.inl hw2
      · rw [hr] at hw2
        rcases List.mem_append.mp hw2 with h | h
        · exact Or.inl h
        · rw [List.mem_singleton] at h
          subst h
          exact Or.inr ⟨r1, r2, r3⟩
    | listWorkflows vu =>
      simp only [step] at hw2
      rw [api_get_workflows_workflows] at hw2
      exact Or.inl hw2
    | deleteWorkflowOp vu wid =>
      simp only [step] at hw2
      rcases api_delete_workflow_workflows db vu wid with h | h
      · rw [h] at hw2; exact Or.inl hw2
      · rw [h] at hw2; exact Or.inl (List.mem_of_mem_filter hw2)
    | deleteAccount uid =>
      simp only [step, delete_user] at hw2
      exact Or.inl (List.mem_of_mem_filter hw2)
    | saveProfile uid n e o ok =>
      simp only [step] at hw2
      rw [save_profile_workflows] at hw2
      exact Or.inl hw2
    | changePasswordOp uid ok hsh =>
      simp only [step] at hw2
      rw [change_password_workflows] at hw2
      exact Or.inl hw2

theorem C3_creation_status_and_exclusivity_witness :
    get_workflow_by_id
        (submit_handle_response dbU "u1" req0
          (.response 201 "accepted" (some ⟨some "w1", none, none⟩)) 0).2
        "w1"
      = some ⟨"w1", "u1", req0.name, req0.description, req0.species_name,
          req0.ecosystem_type, req0.geometry_type, req0.geometry_wkt,
          req0.parameters_str, "submitted", none, none, 0, 0, none⟩ ∧
    (wf1 ∈ dbW.workflows ∨
      (wf1.results = none ∧ wf1.error_message = none ∧
       wf1.completed_at = none)) :=
  ⟨(C3_creation_status_and_exclusivity dbU 0).1 "u1" req0 201 "accepted"
     ⟨some "w1", none, none⟩ "w1" (by decide) rfl (by decide) (by decide),
   (C3_creation_status_and_exclusivity dbW 2).2
     (.listWorkflows (some "u1")) rfl wf1 (by decide)⟩

/-- C7 counterexample: the claim says status transitions follow
submitted → running → (completed or failed), never skipping a step and
never leaving a terminal status. On the code, a freshly created row
(status submitted, store `dbW`) moves directly to completed on a
completed webhook call — "running" is never assigned anywhere in this
repository — and a subsequent failed call moves the row out of the
terminal status completed into failed, because the webhook writes
unconditionally. -/
theorem C7_counterexample :
    (get_workflow_by_id dbW "w1").map Workflow.status = some "submitted" ∧
    (get_workflow_by_id
        (workflow_webhook dbW "w1"
          ⟨"w1", "completed", some ⟨"auc: 0.8"⟩, none⟩ 1).2 "w1").map
      Workflow.status = some "completed" ∧
    (get_workflow_by_id
        (workflow_webhook
          (workflow_webhook dbW "w1"
            ⟨"w1", "completed", some ⟨"auc: 0.8"⟩, none⟩ 1).2 "w1"
          ⟨"w1", "failed", none, some "crashed"⟩ 2).2 "w1").map
      Workflow.status = some "failed" :=
  ⟨by decide, by decide, by decide⟩

/-- Statuses after an UPDATE of one id: the written status or an old one. -/
theorem update_workflow_status_status_mem (l : List Workflow)
    (wid st : String) (r e : Option String) (now : Timestamp) :
    ∀ s ∈ (l.map (fun w =>
        if w.workflow_id = wid then update_row w st r e now else w)).map
        Workflow.status,
      s = st ∨ s ∈ l.map Workflow.status := by
  intro s hs
  rw [List.map_map, List.mem_map] at hs
  obtain ⟨w, hw, hs⟩ := hs
  by_cases h : w.workflow_id = wid
  · left
    rw [← hs]
    simp [Function.comp, h, update_row_status]
  · right
    rw [← hs]
    simpa [Function.comp, h] using List.mem_map.mpr ⟨w, hw, rfl⟩

/-- Statuses after one operation: "completed" or "failed" (webhook), an
already-present status, or a status the operation introduces. -/
theorem step_status_mem (db : DB) (op : Op) (t : Timestamp) :
    ∀ s ∈ (step db op t).workflows.map Workflow.status,
      s = "completed" ∨ s = "failed" ∨
      s ∈ db.workflows.map Workflow.status ∨
      s ∈ op.introduced_statuses := by
  intro s hs
  cases op with
  | webhook wid wd =>
    simp only [step, workflow_webhook] at hs
    by_cases hc : wd.status = "completed"
    · rw [if_pos hc] at hs
      rcases update_workflow_status_status_mem db.workflows wid
        "completed" _ _ t s hs with h | h
      · exact Or.inl h
      · exact Or.inr (Or.inr (Or.inl h))
    · rw [if_neg hc] at hs
      by_cases hf : wd.status = "failed"
      · rw [if_pos hf] at hs
        rcases update_workflow_status_status_mem db.workflows wid
          "failed" _ _ t s hs with h | h
        · exact Or.inr (Or.inl h)
        · exact Or.inr (Or.inr (Or.inl h))
      · rw [if_neg hf] at hs
        exact Or.inr (Or.inr (Or.inl hs))
  | signup u uid hpw tok =>
    simp only [step] at hs
    rw [api_signup_workflows] at hs
    exact Or.inr (Or.inr (Or.inl hs))
  | submit vu wf tpl ext =>
    simp only [step] at hs
    rw [api_submit_workflow_workflows] at hs
    exact Or.inr (Or.inr (Or.inl hs))
  | submitCall uid wf ext =>
    simp only [step] at hs
    rcases submit_handle_response_workflows db uid wf ext t with
      h | ⟨row, hr, _, _, _, hst⟩
    · rw [h] at hs
      exact Or.inr (Or.inr (Or.inl hs))
    · rw [hr, List.map_append, List.mem_append] at hs
      rcases hs with h2 | h2
      · exact Or.inr (Or.inr (Or.inl h2))
      · refine Or.inr (Or.inr (Or.inr ?_))
        rw [← hst]
        simpa using h2
  | listWorkflows vu =>
    simp only [step] at hs
    rw [api_get_workflows_workflows] at hs
    exact Or.inr (Or.inr (Or.inl hs))
  | deleteWorkflowOp vu wid =>
    simp only [step] at hs
    rcases api_delete_workflow_workflows db vu wid with h | h
    · rw [h] at hs
      exact Or.inr (Or.inr (Or.inl hs))
    · rw [h] at hs
      rw [List.mem_map] at hs
      obtain ⟨w, hw, hws⟩ := hs
      refine Or.inr (Or.inr (Or.inl ?_))
      exact List.mem_map.mpr ⟨w, List.mem_of_mem_filter hw, hws⟩
  | deleteAccount uid =>
    simp only [step, delete_user] at hs
    rw [List.mem_map] at hs
    obtain ⟨w, hw, hws⟩ := hs
    refine Or.inr (Or.inr (Or.inl ?_))
    exact List.mem_map.mpr ⟨w, List.mem_of_mem_filter hw, hws⟩
  | saveProfile uid n e o ok =>
    simp only [step] at hs
    rw [save_profile_workflows] at hs
    exact Or.inr (Or.inr (Or.inl hs))
  | changePasswordOp uid ok hsh =>
    simp only [step] at hs
    rw [change_password_workflows] at hs
    exact Or.inr (Or.inr (Or.inl hs))

/-- C7 (amended): the only status transitions in this repository are
unconditional webhook writes of "completed" and "failed" — "running" is
never assigned, a completed or failed webhook call overwrites any current
status (terminal statuses are not sticky, and "running" is skipped) —
and row creation stores the status of the external submit response,
"submitted" only by default. Consequently, after any sequence of
operations, every status in the store is "completed", "failed", a status
already present initially, or a status some submit response introduced. -/
theorem C7_status_values (db : DB) (ops : List (Op × Timestamp)) :
    ∀ w ∈ (run db ops).workflows,
      w.status = "completed" ∨ w.status = "failed" ∨
      w.status ∈ db.workflows.map Workflow.status ∨
      w.status ∈ ops.flatMap (fun p => Op.introduced_statuses p.1) := by
  induction ops generalizing db with
  | nil =>
    intro w hw
    exact Or.inr (Or.inr (Or.inl (List.mem_map.mpr ⟨w, hw, rfl⟩)))
  | cons p rest ih =>
    obtain ⟨op, t⟩ := p
    intro w hw
    simp only [run] at hw
    rcases ih (step db op t) w hw with h | h | h | h
    · exact Or.inl h
    · exact Or.inr (Or.inl h)
    · rcases step_status_mem db op t w.status h with h2 | h2 | h2 | h2
      · exact Or.inl h2
      · exact Or.inr (Or.inl h2)
      · exact Or.inr (Or.inr (Or.inl h2))
      · refine Or.inr (Or.inr (Or.inr ?_))
        rw [List.flatMap_cons]
        exact List.mem_append.mpr (Or.inl h2)
    · refine Or.inr (Or.inr (Or.inr ?_))
      rw [List.flatMap_cons]
      exact List.mem_append.mpr (Or.inr h)

theorem C7_status_values_witness :
    wf1.status = "completed" ∨ wf1.status = "failed" ∨
    wf1.status ∈ dbU.workflows.map Workflow.status ∨
    wf1.status ∈
      ([((Op.submitCall "u1" req0 extOkNoStatus : Op), (0 : Timestamp))]).flatMap
        (fun p => Op.introduced_statuses p.1) :=
  C7_status_values dbU [(Op.submitCall "u1" req0 extOkNoStatus, 0)] wf1
    (by decide)

end BMD
